import Mathlib

/-!
Verification development for the esp_dmx DMX512/RDM driver.

The C sources are shallowly embedded: the per-port driver singleton becomes
the `DmxDriver` structure, and each driver function becomes a Lean function
from a driver state (plus explicit oracle inputs standing for clock reads,
FIFO capacities and task-notification outcomes) to a result and a new state.
Byte buffers are total functions `Nat → Nat` holding `uint8_t` values; times
are `Int` microseconds since boot, matching the C `int64_t` timestamps.

Constants whose defining header is not part of the sources at hand are
modelled from the specification document and are marked as such.
-/

/-- `DMX_MAX_PACKET_SIZE`: start code plus 512 data slots. -/
def DMX_MAX_PACKET_SIZE : Nat := 513

/-- RDM start code (first slot of an RDM frame). -/
def RDM_SC : Nat := 0xCC

/-- RDM sub-start code (second slot of an RDM frame). -/
def RDM_SUB_SC : Nat := 0x01

/-- First byte of an RDM discovery-response preamble. -/
def RDM_PREAMBLE : Nat := 0xFE

/-- Delimiter byte ending an RDM discovery-response preamble. -/
def RDM_DELIMITER : Nat := 0xAA

/-- RDM command class: discovery request. -/
def RDM_CC_DISC_COMMAND : Nat := 0x10

/-- RDM command class: GET request. -/
def RDM_CC_GET_COMMAND : Nat := 0x20

/-- RDM command class: SET request. -/
def RDM_CC_SET_COMMAND : Nat := 0x30

/-- RDM command class: discovery response. -/
def RDM_CC_DISC_COMMAND_RESPONSE : Nat := 0x11

/-- RDM command class: GET response. -/
def RDM_CC_GET_COMMAND_RESPONSE : Nat := 0x21

/-- RDM command class: SET response. -/
def RDM_CC_SET_COMMAND_RESPONSE : Nat := 0x31

/-- PID of the DISC_UNIQUE_BRANCH discovery parameter. -/
def RDM_PID_DISC_UNIQUE_BRANCH : Nat := 0x0001

/-- Modelled from the spec: the NACK reason `NR_UNKNOWN_PID`; the spec's
unknown-PID scenario gives its on-wire big-endian encoding as `00 11`,
hence the value 0x0011 (rdm/types.h is not among the sources). -/
def RDM_NR_UNKNOWN_PID : Nat := 0x0011

/-- Modelled from the spec: the NACK reason `NR_HARDWARE_FAULT`
(rdm/types.h is not among the sources; the exact value is not used by
any theorem below). -/
def RDM_NR_HARDWARE_FAULT : Nat := 0x0002

/-- RDM data type code for ASCII parameter data. -/
def RDM_DS_ASCII : Nat := 0x03

/-- `RDM_RESPONDER_NUM_PIDS_MAX`: capacity of the parameter table.
The bundled driver.h computes 8 + CONFIG_RDM_RESPONDER_MAX_PARAMETERS
with a default of 16, giving 24. -/
def RDM_RESPONDER_NUM_PIDS_MAX : Nat := 24

/-- Modelled from the spec: `RDM_RESPONDER_QUEUE_SIZE_MAX`, the capacity
of the pending-PID queue (`rdm_queue[0..QUEUE_MAX]`); the defining header
is not among the sources, so a fixed positive capacity is used. -/
def RDM_RESPONDER_QUEUE_SIZE_MAX : Nat := 16

/-- Controller-side response-lost timeout, microseconds. -/
def RDM_CONTROLLER_RESPONSE_LOST_TIMEOUT : Int := 2800

/-- Responder-side response-lost timeout, microseconds. -/
def RDM_RESPONDER_RESPONSE_LOST_TIMEOUT : Int := 2000

/-- Spacing after a discovery request with no response, microseconds. -/
def RDM_DISCOVERY_NO_RESPONSE_PACKET_SPACING : Nat := 5800

/-- Spacing after a unicast request with no response, microseconds. -/
def RDM_REQUEST_NO_RESPONSE_PACKET_SPACING : Nat := 3000

/-- Spacing after a broadcast request, microseconds. -/
def RDM_BROADCAST_PACKET_SPACING : Nat := 176

/-- Spacing before responding to a received request, microseconds. -/
def RDM_RESPOND_TO_REQUEST_PACKET_SPACING : Nat := 176

/-- The `DMX_FLAGS_RDM_*` classification bits of `driver->rdm_type`,
modelled as a bitset of four distinct flags (the spec describes
`flags` as a bitset over named flags; the numeric bit positions are
irrelevant as long as the flags are distinct). -/
structure RdmType where
  is_valid : Bool
  is_request : Bool
  is_broadcast : Bool
  is_disc_unique_branch : Bool
deriving DecidableEq, Repr

/-- The all-clear value of `driver->rdm_type` (the C literal `0`). -/
def RdmType.zero : RdmType :=
  { is_valid := false, is_request := false, is_broadcast := false,
    is_disc_unique_branch := false }

/-- A 48-bit RDM UID: 16-bit manufacturer id plus 32-bit device id. -/
structure RdmUid where
  man_id : Nat
  dev_id : Nat
deriving DecidableEq, Repr

/-- Modelled from the spec: `uid_is_broadcast` (rdm/utils/uid.c is not among
the sources). A UID is a broadcast UID when its device id is all-ones. -/
def uid_is_broadcast (uid : RdmUid) : Bool :=
  uid.dev_id == 0xFFFFFFFF

/-- Modelled from the spec: `uid_is_target` (rdm/utils/uid.c is not among
the sources). A destination targets this device on an all-device broadcast,
a vendor broadcast matching this device's manufacturer id, or an exact
match. -/
def uid_is_target (my dest : RdmUid) : Bool :=
  (uid_is_broadcast dest && (dest.man_id == 0xFFFF || dest.man_id == my.man_id))
    || dest == my

/-- The response types a per-PID handler may return, as distinct enum
values (rdm/types.h is not among the sources; the spec lists exactly
these six). -/
inductive RdmResponseType where
  | ack
  | ackTimer
  | nackReason
  | ackOverflow
  | none
  | invalid
deriving DecidableEq, Repr

/-- An RDM parameter descriptor (`rdm_pid_description_t`), restricted to
the fields the embedded functions consult. -/
structure RdmPidDescription where
  pid : Nat
  pdl_size : Nat
  data_type : Nat
deriving DecidableEq, Repr

/-- One entry of the parameter table (`driver->params[i]`). The response
handler and callback are opaque to every function embedded here, so they
are carried as plain identifiers. -/
structure RdmParameter where
  definition : RdmPidDescription
  data : Option Nat
  format : String
  nvs : Bool
  response_handler : Nat
  callback : Option Nat
deriving DecidableEq, Repr

/-- A zero-initialized parameter-table slot (the driver storage is
zero-filled at install, so unused slots carry PID 0). -/
def RdmParameter.zeroed : RdmParameter :=
  { definition := { pid := 0, pdl_size := 0, data_type := 0 },
    data := Option.none, format := "", nvs := false,
    response_handler := 0, callback := Option.none }

/-- The 24-byte RDM header as parsed by `rdm_read`, field for field. -/
structure RdmHeader where
  dest_uid : RdmUid
  src_uid : RdmUid
  tn : Nat
  response_type : RdmResponseType
  message_count : Nat
  sub_device : Nat
  cc : Nat
  pid : Nat
  pdl : Nat

/-- One entry of the dispatcher callback table (`driver->rdm_cbs[i]`).
A callback takes the request header and the parameter-data buffer and
returns its response type, the response parameter-data length `pdl_out`,
and the rewritten parameter-data buffer. -/
structure RdmCbEntry where
  pid : Nat
  pdl_size : Nat
  cb : RdmHeader → (Nat → Nat) → RdmResponseType × Nat × (Nat → Nat)

/-- A callback-table slot that matches no PID and answers nothing. -/
def RdmCbEntry.zeroed : RdmCbEntry :=
  { pid := 0, pdl_size := 0,
    cb := fun _ pd => (RdmResponseType.none, 0, pd) }

/-- The per-port driver state (`dmx_driver_t`), restricted to the fields
read or written by the embedded functions. Buffers are total functions;
only indexes below the respective capacity are meaningful. -/
structure DmxDriver where
  data : Nat → Nat
  head : Int
  tx_size : Nat
  rts : Nat
  is_sending : Bool
  is_in_break : Bool
  sent_last : Bool
  has_data : Bool
  timer_running : Bool
  rdm_type : RdmType
  last_slot_ts : Int
  tn : Nat
  break_len : Nat
  mab_len : Nat
  params : Nat → RdmParameter
  num_parameters : Nat
  pd : Nat → Nat
  pd_head : Nat
  pd_size : Nat
  rdm_queue : List Nat
  rdm_cbs : Nat → RdmCbEntry
  num_rdm_cbs : Nat

/-- Modelled from the spec: the driver state created by driver install
(`dmx_driver_install` is not among the sources). All storage is
zero-filled, the driver listens (RTS high), `head` awaits a break, and
`tx_size` defaults to a full frame. -/
def dmx_driver_install (pd_size : Nat) : DmxDriver :=
  { data := fun _ => 0, head := -1, tx_size := DMX_MAX_PACKET_SIZE, rts := 1,
    is_sending := false, is_in_break := false, sent_last := false,
    has_data := false, timer_running := false, rdm_type := RdmType.zero,
    last_slot_ts := 0, tn := 0, break_len := 176, mab_len := 12,
    params := fun _ => RdmParameter.zeroed, num_parameters := 0,
    pd := fun _ => 0, pd_head := 0, pd_size := pd_size,
    rdm_queue := [], rdm_cbs := fun _ => RdmCbEntry.zeroed, num_rdm_cbs := 0 }

/-- `memcpy(buf + offset, src, len)` on a byte buffer. -/
def bufWrite (buf : Nat → Nat) (offset : Nat) (src : Nat → Nat) (len : Nat) :
    Nat → Nat :=
  fun i => if offset ≤ i ∧ i < offset + len then src (i - offset) else buf i

/-- `strncpy(buf + offset, src, len)`: copies `src` up to and including its
first NUL byte, zero-filling the remainder of the `len`-byte window. -/
def strncpyBytes (buf : Nat → Nat) (offset : Nat) (src : Nat → Nat)
    (len : Nat) : Nat → Nat :=
  fun i =>
    if offset ≤ i ∧ i < offset + len then
      if ∀ j < i - offset, src j ≠ 0 then src (i - offset) else 0
    else buf i

/-- `dmx_read_offset`: precondition checks, clamp of the size to the
packet bound, then an asynchronous copy out of the driver buffer. The
copied bytes are returned as a list. -/
def dmx_read_offset (d : DmxDriver) (offset size : Nat) : Nat × List Nat :=
  if DMX_MAX_PACKET_SIZE ≤ offset then (0, [])
  else
    let size :=
      if DMX_MAX_PACKET_SIZE < size + offset then DMX_MAX_PACKET_SIZE - offset
      else size
    if size = 0 then (0, [])
    else (size, (List.range size).map fun i => d.data (offset + i))

/-- `dmx_write_offset`: precondition checks, the same size clamp, refusal
while an RDM frame is being sent, the implicit RTS flip to drive-TX, the
`tx_size := offset + size` update and the copy into the driver buffer. -/
def dmx_write_offset (d : DmxDriver) (offset : Nat) (source : Nat → Nat)
    (size : Nat) : Nat × DmxDriver :=
  if DMX_MAX_PACKET_SIZE ≤ offset then (0, d)
  else
    let size :=
      if DMX_MAX_PACKET_SIZE < size + offset then DMX_MAX_PACKET_SIZE - offset
      else size
    if size = 0 then (0, d)
    else if d.is_sending = true ∧ d.rdm_type ≠ RdmType.zero then (0, d)
    else
      let d := if d.rts = 1 then { d with rts := 0 } else d
      (size, { d with tx_size := offset + size,
                      data := bufWrite d.data offset source size })

/-- The buffered frame begins with the RDM start code and sub-start code.
This embeds the little-endian `uint16_t` comparison
`*(uint16_t *)driver->data == (RDM_SC | (RDM_SUB_SC << 8))`
(the buffer holds `uint8_t` values). -/
def dataIsRdm (data : Nat → Nat) : Prop :=
  data 0 = RDM_SC ∧ data 1 = RDM_SUB_SC

instance (data : Nat → Nat) : Decidable (dataIsRdm data) := by
  unfold dataIsRdm; infer_instance

/-- The command class at slot 20 is one of the three RDM response classes. -/
def ccIsResponse (cc : Nat) : Prop :=
  cc = RDM_CC_DISC_COMMAND_RESPONSE ∨ cc = RDM_CC_GET_COMMAND_RESPONSE ∨
    cc = RDM_CC_SET_COMMAND_RESPONSE

instance (cc : Nat) : Decidable (ccIsResponse cc) := by
  unfold ccIsResponse; infer_instance

/-- The `rdm_type` value holding exactly the IS_REQUEST flag: the literal
`DMX_FLAGS_RDM_IS_REQUEST` that `dmx_send` compares against with `==`. -/
def RdmType.onlyRequest : RdmType :=
  { is_valid := false, is_request := true, is_broadcast := false,
    is_disc_unique_branch := false }

/-- The `rdm_type` value `DMX_FLAGS_RDM_IS_VALID | DMX_FLAGS_RDM_IS_DISC_UNIQUE_BRANCH`
that marks an outbound discovery response (sent without a break). -/
def RdmType.discResponse : RdmType :=
  { is_valid := true, is_request := false, is_broadcast := false,
    is_disc_unique_branch := true }

/-- The destination UID held big-endian at slots 3..8 of the buffer
(the `uidcpy(&dest_uid, &driver->data[3])` of `dmx_send`). -/
def dataDestUid (data : Nat → Nat) : RdmUid :=
  { man_id := data 3 * 256 + data 4,
    dev_id := ((data 5 * 256 + data 6) * 256 + data 7) * 256 + data 8 }

/-- The PID held big-endian at slots 21..22 of the buffer
(the `bswap16(*(uint16_t *)&driver->data[21])` of `dmx_send`). -/
def dataPid (data : Nat → Nat) : Nat :=
  data 21 * 256 + data 22

/-- The outgoing-packet classification of `dmx_send`: an RDM frame sets
IS_VALID, plus IS_REQUEST for a request command class, IS_BROADCAST for a
broadcast destination and IS_DISC_UNIQUE_BRANCH for the discovery PID; a
preamble- or delimiter-led frame is a discovery response. -/
def dmx_send_classify (data : Nat → Nat) : RdmType :=
  if dataIsRdm data then
    { is_valid := true,
      is_request := data 20 = RDM_CC_DISC_COMMAND ∨
        data 20 = RDM_CC_GET_COMMAND ∨ data 20 = RDM_CC_SET_COMMAND,
      is_broadcast := uid_is_broadcast (dataDestUid data),
      is_disc_unique_branch := dataPid data = RDM_PID_DISC_UNIQUE_BRANCH }
  else if data 0 = RDM_PREAMBLE ∨ data 0 = RDM_DELIMITER then
    RdmType.discResponse
  else RdmType.zero

/-- The inter-packet spacing (µs) `dmx_send` selects from the previous
send's classification. Note the source compares `driver->rdm_type` for
*equality* with the lone IS_REQUEST flag in the unicast-request case. -/
def dmx_send_timeout (d : DmxDriver) : Nat :=
  if d.sent_last = true then
    if d.rdm_type.is_disc_unique_branch = true then
      RDM_DISCOVERY_NO_RESPONSE_PACKET_SPACING
    else if d.rdm_type.is_broadcast = true then
      RDM_BROADCAST_PACKET_SPACING
    else if d.rdm_type = RdmType.onlyRequest then
      RDM_REQUEST_NO_RESPONSE_PACKET_SPACING
    else 0
  else if d.rdm_type.is_valid = true then
    RDM_RESPOND_TO_REQUEST_PACKET_SPACING
  else 0

/-- Result of `dmx_send`: the returned byte count, the new driver state,
the spacing alarm value when the one-shot hardware timer was armed to
wait out inter-packet spacing, and whether a transmission was started. -/
structure SendResult where
  ret : Nat
  driver : DmxDriver
  spacing_alarm : Option Nat
  started : Bool

/-- The tail of `dmx_send` past the spacing wait: RTS flip, `tx_size`
update, outgoing-packet classification with the transaction-number
increment, and the discovery-response (no break) or break-led transmit
path. -/
def dmx_send_transmit (d : DmxDriver) (size : Nat) (alarm : Option Nat)
    (txfifo_len : Nat) : SendResult :=
  let d0 := if d.rts = 1 then { d with rts := 0 } else d
  let sized :=
    if 0 < size then
      let sz := if DMX_MAX_PACKET_SIZE < size then DMX_MAX_PACKET_SIZE
                else size
      (sz, { d0 with tx_size := sz })
    else (d0.tx_size, d0)
  let size := sized.1
  let d1 := sized.2
  let rdm_type := dmx_send_classify d1.data
  let d2 := { d1 with rdm_type := rdm_type, sent_last := true }
  let d3 := if rdm_type.is_valid = true ∧ rdm_type.is_request = true then
      { d2 with tn := d2.tn + 1 }
    else d2
  if rdm_type = RdmType.discResponse then
    let write_size := min d3.tx_size txfifo_len
    { ret := size,
      driver := { d3 with is_sending := true, head := (write_size : Int) },
      spacing_alarm := alarm, started := true }
  else
    { ret := size,
      driver := { d3 with head := 0, is_in_break := true, is_sending := true,
                          timer_running := true },
      spacing_alarm := alarm, started := true }

/-- `dmx_send(dmx_num, size)` after the mutex and `dmx_wait_sent` succeed.
Oracles: `now1`/`now2` are the two `esp_timer_get_time()` reads, `notified`
the outcome of the spacing `xTaskNotifyWait`, and `txfifo_len` the free TX
FIFO space seen by the discovery-response path. Mirrors, in order: the
response-window check, the spacing computation and optional alarm wait,
then the transmit tail. -/
def dmx_send (d : DmxDriver) (size : Nat) (now1 now2 : Int) (notified : Bool)
    (txfifo_len : Nat) : SendResult :=
  let cc := d.data 20
  let elapsed0 : Int :=
    if dataIsRdm d.data ∧ ccIsResponse cc then now1 - d.last_slot_ts else 0
  if RDM_RESPONDER_RESPONSE_LOST_TIMEOUT ≤ elapsed0 then
    { ret := 0, driver := d, spacing_alarm := Option.none, started := false }
  else
    let timeout := dmx_send_timeout d
    let elapsed : Int := now2 - d.last_slot_ts
    if elapsed < (timeout : Int) then
      let d1 := { d with timer_running := true }
      if notified = false then
        { ret := 0, driver := { d1 with timer_running := false },
          spacing_alarm := some timeout, started := false }
      else
        dmx_send_transmit d1 size (some timeout) txfifo_len
    else
      dmx_send_transmit d size Option.none txfifo_len

/-- Modelled from the spec: the UART TX ISR completion step (the ISR
matching this driver generation is not among the sources). When the last
byte is accepted it clears IS_SENDING, records `last_slot_ts` and notifies
the waiting task. -/
def dmx_isr_tx_done (d : DmxDriver) (now : Int) : DmxDriver :=
  { d with is_sending := false, is_in_break := false, last_slot_ts := now }

/-- Modelled from the spec: the UART RX ISR break step — `head` is zeroed
and accumulation begins. -/
def dmx_isr_rx_break (d : DmxDriver) : DmxDriver :=
  { d with head := 0 }

/-- Modelled from the spec: the UART RX ISR drain step — bytes are drained
into `buffer[head..]`, truncated at `DMX_MAX_PACKET_SIZE`; `head` advances,
`last_slot_ts` is recorded and the frame is published. No drain happens
while `head` is the awaiting-break sentinel. -/
def dmx_isr_rx_data (d : DmxDriver) (bytes : List Nat) (now : Int) :
    DmxDriver :=
  if 0 ≤ d.head then
    let len := min bytes.length (DMX_MAX_PACKET_SIZE - d.head.toNat)
    { d with head := d.head + (len : Int),
             data := bufWrite d.data d.head.toNat (fun i => bytes.getD i 0) len,
             has_data := true, last_slot_ts := now }
  else d

/-- The state mutations of the front half of `dmx_receive` (before the RDM
dispatch): the RTS flip with `head := -1` and the HAS_DATA clear, the
RDM early-timeout arming (DRIVER_SENT_LAST with both IS_REQUEST and
IS_DISC_UNIQUE_BRANCH set) with its immediate-return when the controller
window already elapsed, and the HAS_DATA clear on packet parse. Oracles:
`now` is the `esp_timer_get_time()` read, `wait_pos` whether a positive
wait was given, `notified` the `xTaskNotifyWait` outcome. -/
def dmx_receive_state (d : DmxDriver) (now : Int) (wait_pos notified : Bool) :
    DmxDriver :=
  let d := if d.rts = 0 then
      { d with head := -1, has_data := false, rts := 1 }
    else d
  if d.has_data = false ∧ wait_pos = true then
    let early := d.sent_last = true ∧ d.rdm_type.is_request = true ∧
      d.rdm_type.is_disc_unique_branch = true
    if early ∧ RDM_CONTROLLER_RESPONSE_LOST_TIMEOUT ≤ now - d.last_slot_ts then
      d
    else
      let d := if early then { d with timer_running := true } else d
      if notified = true then { d with has_data := false }
      else { d with timer_running := false }
  else if d.has_data = true then { d with has_data := false }
  else d

/-- The first index `j` with `i ≤ j < i + n` satisfying `f`, or `i + n`
when none does: the linear-search loops of pd.c and of the dispatcher. -/
def scanIdx (f : Nat → Bool) : Nat → Nat → Nat
  | i, 0 => i
  | i, n + 1 => if f i then i else scanIdx f (i + 1) n

/-- The index of the first occurrence of `pid` in the queue, mirroring the
search loop of `rdm_pd_enqueue`. -/
def listFindIdx (pid : Nat) : List Nat → Option Nat
  | [] => Option.none
  | x :: xs => if x = pid then some 0 else (listFindIdx pid xs).map (· + 1)

/-- The index `pdi` at which the pd.c loops stop when searching the
parameter table for `pid`. -/
def findParamIdx (d : DmxDriver) (pid : Nat) : Nat :=
  scanIdx (fun i => (d.params i).definition.pid == pid) 0 d.num_parameters

/-- The default-value initialization block of `rdm_pd_add_new`: strncpy
for ASCII data, zero fill for a null default, memcpy otherwise. -/
def pdInitBytes (slab : Nat → Nat) (off : Nat) (defn : RdmPidDescription)
    (default_value : Option (Nat → Nat)) : Nat → Nat :=
  if defn.data_type = RDM_DS_ASCII then
    strncpyBytes slab off
      (fun j => match default_value with
        | some f => f j
        | Option.none => 0) defn.pdl_size
  else
    match default_value with
    | Option.none => bufWrite slab off (fun _ => 0) defn.pdl_size
    | some f => bufWrite slab off f defn.pdl_size

/-- `rdm_pd_add_new`: duplicate-PID check (including the source's re-check
of `params[pdi]` after the loop), table-capacity check, slab reservation,
default-value initialization (strncpy for ASCII, zero fill for a null
default, memcpy otherwise) and the append of the new record. Returns the
slab offset of the reserved region. -/
def rdm_pd_add_new (d : DmxDriver) (defn : RdmPidDescription) (format : String)
    (nvs : Bool) (response_handler : Nat)
    (default_value : Option (Nat → Nat)) : Option Nat × DmxDriver :=
  let pdi := findParamIdx d defn.pid
  if (d.params pdi).definition.pid = defn.pid then (Option.none, d)
  else if pdi = RDM_RESPONDER_NUM_PIDS_MAX then (Option.none, d)
  else if d.pd_head + defn.pdl_size ≤ d.pd_size then
    let pdOff := d.pd_head
    let newSlab : Nat → Nat := pdInitBytes d.pd pdOff defn default_value
    (some pdOff,
      { d with
        pd_head := d.pd_head + defn.pdl_size,
        pd := newSlab,
        params := fun i =>
          if i = pdi then
            { definition := defn, data := some pdOff, format := format,
              nvs := nvs, response_handler := response_handler,
              callback := Option.none }
          else d.params i,
        num_parameters := d.num_parameters + 1 })
  else (Option.none, d)

/-- `rdm_pd_add_alias`: duplicate-PID and capacity checks, lookup of the
aliased parameter, offset bound check, and append of a record sharing the
existing slab region at `offset`. (Aliasing a deterministic parameter,
whose `data` is null, is undefined in the C source; the model keeps the
null.) -/
def rdm_pd_add_alias (d : DmxDriver) (defn : RdmPidDescription)
    (format : String) (nvs : Bool) (response_handler : Nat) (aliasPid : Nat)
    (offset : Nat) : Option Nat × DmxDriver :=
  let pdi := findParamIdx d defn.pid
  if (d.params pdi).definition.pid = defn.pid then (Option.none, d)
  else if pdi = RDM_RESPONDER_NUM_PIDS_MAX then (Option.none, d)
  else
    let apdi := findParamIdx d aliasPid
    if (d.params apdi).definition.pid ≠ aliasPid then (Option.none, d)
    else if (d.params apdi).definition.pdl_size < offset then (Option.none, d)
    else
      let pdOff := ((d.params apdi).data).map (· + offset)
      (pdOff,
        { d with
          params := fun i =>
            if i = pdi then
              { definition := defn, data := pdOff, format := format,
                nvs := nvs, response_handler := response_handler,
                callback := Option.none }
            else d.params i,
          num_parameters := d.num_parameters + 1 })

/-- `rdm_pd_add_deterministic`: duplicate-PID and capacity checks, then the
append of a record with a null `data` pointer — the handler computes the
value on demand. -/
def rdm_pd_add_deterministic (d : DmxDriver) (defn : RdmPidDescription)
    (format : String) (response_handler : Nat) : Bool × DmxDriver :=
  let pdi := findParamIdx d defn.pid
  if (d.params pdi).definition.pid = defn.pid then (false, d)
  else if pdi = RDM_RESPONDER_NUM_PIDS_MAX then (false, d)
  else
    (true,
      { d with
        params := fun i =>
          if i = pdi then
            { definition := defn, data := Option.none, format := format,
              nvs := false, response_handler := response_handler,
              callback := Option.none }
          else d.params i,
        num_parameters := d.num_parameters + 1 })

/-- `rdm_pd_get`: linear search of the parameter table; returns the record's
slab pointer on a hit, null otherwise. -/
def rdm_pd_get (d : DmxDriver) (pid : Nat) : Option Nat :=
  let i := findParamIdx d pid
  if i < d.num_parameters then (d.params i).data else Option.none

/-- `rdm_pd_set`: rejects a zero size and an absent parameter, silently
fails on a deterministic parameter (null `data`), otherwise copies into
the slab (strncpy for ASCII data, memcpy otherwise). -/
def rdm_pd_set (d : DmxDriver) (pid : Nat) (dataIn : Nat → Nat)
    (size : Nat) : Bool × DmxDriver :=
  if size = 0 then (false, d)
  else
    let pdi := findParamIdx d pid
    if pdi = d.num_parameters then (false, d)
    else
      match (d.params pdi).data with
      | Option.none => (false, d)
      | some off =>
        (true,
          { d with pd :=
              if (d.params pdi).definition.data_type = RDM_DS_ASCII then
                strncpyBytes d.pd off dataIn size
              else bufWrite d.pd off dataIn size })

/-- `rdm_pd_enqueue`: fails with -1 when the PID is not a registered
parameter; otherwise, only while the queue is not full, returns the index
of an already-queued PID or appends and returns the new index; -1 when
the queue is full. -/
def rdm_pd_enqueue (d : DmxDriver) (pid : Nat) : Int × DmxDriver :=
  let pdi := findParamIdx d pid
  if pdi = d.num_parameters then (-1, d)
  else if d.rdm_queue.length < RDM_RESPONDER_QUEUE_SIZE_MAX then
    match listFindIdx pid d.rdm_queue with
    | some i => ((i : Int), d)
    | Option.none =>
      ((d.rdm_queue.length : Int),
        { d with rdm_queue := d.rdm_queue ++ [pid] })
  else (-1, d)

/-- Modelled from the spec: `pd_emplace_word` (rdm/utils.c is not among the
sources) writes a 16-bit word big-endian at the start of the parameter-data
buffer and returns the written length 2. -/
def pd_emplace_word (pd : Nat → Nat) (word : Nat) : Nat × (Nat → Nat) :=
  (2, fun i => if i = 0 then word / 256 % 256
               else if i = 1 then word % 256
               else pd i)

/-- A composed RDM response: the rewritten header and the parameter-data
buffer handed to `rdm_write`. -/
structure RdmResponse where
  header : RdmHeader
  pd : Nat → Nat

/-- Outcome of the RDM dispatch tail of `dmx_receive`: the returned packet
size, whether a registered per-PID callback was invoked, and the response
that was written and sent (`none` when the response was suppressed). -/
structure DispatchOutcome where
  ret : Nat
  handler_invoked : Bool
  response : Option RdmResponse

/-- The index at which the dispatcher's callback-table loop stops for
`pid`. -/
def findCbIdx (d : DmxDriver) (pid : Nat) : Nat :=
  scanIdx (fun i => (d.rdm_cbs i).pid == pid) 0 d.num_rdm_cbs

/-- The RDM dispatch tail of `dmx_receive` (lines following the UID-target
check), for a validated RDM request `header` addressed to this device.
`pd0` is the parameter-data buffer as seen by the callback (filled by
`rdm_read` when `pdl > 0`, uninitialized otherwise). In order: the
callback-table search and callback invocation; suppression for
non-discovery broadcasts; suppression for discovery requests answered
NONE; the NR_UNKNOWN_PID parameter data for an unmatched non-discovery
PID; the NR_HARDWARE_FAULT parameter data for a NONE/INVALID callback
answer; then the header rewrite and the response emission. Note the
source leaves `response_type` untouched in both NACK-synthesis branches
and writes `message_count = 0`. -/
def dmx_receive_dispatch (d : DmxDriver) (header : RdmHeader)
    (pd0 : Nat → Nat) (my_uid : RdmUid) (packet_size : Nat) :
    DispatchOutcome :=
  let cb_num := findCbIdx d header.pid
  let cbOut :=
    if cb_num < d.num_rdm_cbs then (d.rdm_cbs cb_num).cb header pd0
    else (RdmResponseType.none, 0, pd0)
  let response_type := cbOut.1
  let invoked := decide (cb_num < d.num_rdm_cbs)
  if uid_is_broadcast header.dest_uid = true ∧
     ¬(header.cc = RDM_CC_DISC_COMMAND ∧
       header.pid = RDM_PID_DISC_UNIQUE_BRANCH) then
    { ret := packet_size, handler_invoked := invoked,
      response := Option.none }
  else if response_type = RdmResponseType.none ∧
      header.cc = RDM_CC_DISC_COMMAND then
    { ret := packet_size, handler_invoked := invoked,
      response := Option.none }
  else
    let pdlPd :=
      if cb_num = d.num_rdm_cbs ∧ header.cc ≠ RDM_CC_DISC_COMMAND then
        pd_emplace_word cbOut.2.2 RDM_NR_UNKNOWN_PID
      else if response_type = RdmResponseType.none ∨
          response_type = RdmResponseType.invalid then
        pd_emplace_word cbOut.2.2 RDM_NR_HARDWARE_FAULT
      else (cbOut.2.1, cbOut.2.2)
    { ret := packet_size, handler_invoked := invoked,
      response := some
        { header :=
            { header with
              dest_uid := header.src_uid,
              src_uid := my_uid,
              response_type := response_type,
              message_count := 0,
              cc := header.cc + 1,
              pdl := pdlPd.1 },
          pd := pdlPd.2 } }

/-- The quantified driver invariant of the spec: slab head within the slab,
parameter count within the table, `head` within `[-1, 513]` and `tx_size`
within `[1, 513]`. -/
def DriverInv (d : DmxDriver) : Prop :=
  0 ≤ d.pd_head ∧ d.pd_head ≤ d.pd_size ∧
  d.num_parameters ≤ RDM_RESPONDER_NUM_PIDS_MAX ∧
  -1 ≤ d.head ∧ d.head ≤ (DMX_MAX_PACKET_SIZE : Int) ∧
  1 ≤ d.tx_size ∧ d.tx_size ≤ DMX_MAX_PACKET_SIZE

/-- Driver states reachable from install by the public operations
(parameter registration, slot writes, send, receive, enqueue, parameter
set), the response encoder's buffer rewrite, and the ISR steps. -/
inductive Reachable : DmxDriver → Prop where
  | install (pd_size : Nat) : Reachable (dmx_driver_install pd_size)
  | add_new {d : DmxDriver} (defn : RdmPidDescription) (fmt : String)
      (nvs : Bool) (rh : Nat) (dv : Option (Nat → Nat)) :
      Reachable d → Reachable (rdm_pd_add_new d defn fmt nvs rh dv).2
  | add_alias {d : DmxDriver} (defn : RdmPidDescription) (fmt : String)
      (nvs : Bool) (rh a off : Nat) :
      Reachable d → Reachable (rdm_pd_add_alias d defn fmt nvs rh a off).2
  | add_deterministic {d : DmxDriver} (defn : RdmPidDescription)
      (fmt : String) (rh : Nat) :
      Reachable d → Reachable (rdm_pd_add_deterministic d defn fmt rh).2
  | pd_set {d : DmxDriver} (pid : Nat) (f : Nat → Nat) (n : Nat) :
      Reachable d → Reachable (rdm_pd_set d pid f n).2
  | enqueue {d : DmxDriver} (pid : Nat) :
      Reachable d → Reachable (rdm_pd_enqueue d pid).2
  | write {d : DmxDriver} (off : Nat) (src : Nat → Nat) (n : Nat) :
      Reachable d → Reachable (dmx_write_offset d off src n).2
  | send {d : DmxDriver} (size : Nat) (n1 n2 : Int) (ntf : Bool)
      (fifo : Nat) : Reachable d →
      Reachable (dmx_send d size n1 n2 ntf fifo).driver
  | receive {d : DmxDriver} (now : Int) (wait ntf : Bool) :
      Reachable d → Reachable (dmx_receive_state d now wait ntf)
  | rdm_write {d : DmxDriver} (f : Nat → Nat) :
      Reachable d → Reachable { d with data := f }
  | isr_tx_done {d : DmxDriver} (now : Int) :
      Reachable d → Reachable (dmx_isr_tx_done d now)
  | isr_rx_break {d : DmxDriver} :
      Reachable d → Reachable (dmx_isr_rx_break d)
  | isr_rx_data {d : DmxDriver} (bytes : List Nat) (now : Int) :
      Reachable d → Reachable (dmx_isr_rx_data d bytes now)

theorem scanIdx_ge (f : Nat → Bool) : ∀ (n i : Nat), i ≤ scanIdx f i n := by
  intro n
  induction n with
  | zero => intro i; simp [scanIdx]
  | succ n ih =>
    intro i
    simp only [scanIdx]
    split
    · exact Nat.le_refl i
    · exact Nat.le_trans (Nat.le_succ i) (ih (i + 1))

theorem scanIdx_le (f : Nat → Bool) : ∀ (n i : Nat), scanIdx f i n ≤ i + n := by
  intro n
  induction n with
  | zero => intro i; simp [scanIdx]
  | succ n ih =>
    intro i
    simp only [scanIdx]
    split
    · omega
    · have := ih (i + 1); omega

theorem scanIdx_hit (f : Nat → Bool) :
    ∀ (n i : Nat), scanIdx f i n < i + n → f (scanIdx f i n) = true := by
  intro n
  induction n with
  | zero =>
    intro i h
    simp [scanIdx] at h
  | succ n ih =>
    intro i h
    by_cases hf : f i
    · simp [scanIdx, hf]
    · simp [scanIdx, hf] at h ⊢
      exact ih (i + 1) (by omega)

theorem scanIdx_min (f : Nat → Bool) :
    ∀ (n i j : Nat), i ≤ j → j < scanIdx f i n → f j = false := by
  intro n
  induction n with
  | zero =>
    intro i j hij hj
    simp [scanIdx] at hj
    omega
  | succ n ih =>
    intro i j hij hj
    by_cases hf : f i
    · simp [scanIdx, hf] at hj; omega
    · simp only [scanIdx, if_neg hf] at hj
      rcases Nat.eq_or_lt_of_le hij with heq | hlt
      · simpa [← heq] using hf
      · exact ih (i + 1) j hlt hj

theorem scanIdx_first (f : Nat → Bool) :
    ∀ (n i m : Nat), i ≤ m → m < i + n → f m = true →
      (∀ j, i ≤ j → j < m → f j = false) → scanIdx f i n = m := by
  intro n
  induction n with
  | zero => intro i m him hm; omega
  | succ n ih =>
    intro i m him hm hfm hbelow
    by_cases hf : f i
    · have : m = i := by
        by_contra hne
        have : i < m := by omega
        have := hbelow i (Nat.le_refl i) this
        simp [this] at hf
      simp [scanIdx, hf, this]
    · have him' : i + 1 ≤ m := by
        rcases Nat.eq_or_lt_of_le him with heq | hlt
        · exfalso; rw [← heq] at hfm; simp [hfm] at hf
        · omega
      simp only [scanIdx, if_neg hf]
      exact ih (i + 1) m him' (by omega) hfm
        (fun j hj hjm => hbelow j (by omega) hjm)

theorem scanIdx_all_false (f : Nat → Bool) :
    ∀ (n i : Nat), (∀ j, i ≤ j → j < i + n → f j = false) →
      scanIdx f i n = i + n := by
  intro n
  induction n with
  | zero => intro i _; simp [scanIdx]
  | succ n ih =>
    intro i h
    have hf : f i = false := h i (Nat.le_refl i) (by omega)
    simp only [scanIdx, hf]
    simp only [Bool.false_eq_true, if_false]
    have := ih (i + 1) (fun j hj hjn => h j (by omega) (by omega))
    omega

theorem scanIdx_lt_iff (f : Nat → Bool) (n : Nat) :
    scanIdx f 0 n < n ↔ ∃ j, j < n ∧ f j = true := by
  constructor
  · intro h
    exact ⟨scanIdx f 0 n, by simpa using h,
      scanIdx_hit f n 0 (by simpa using h)⟩
  · rintro ⟨j, hj, hfj⟩
    by_contra hge
    push_neg at hge
    have : f j = false := scanIdx_min f n 0 j (Nat.zero_le j) (by omega)
    simp [this] at hfj

/-- C1: when the driver buffer holds an RDM response frame (RDM start code
and sub-start code at slots 0/1, response command class at slot 20) and at
least `RDM_RESPONDER_RESPONSE_LOST_TIMEOUT` (2000 µs) elapsed since
`last_slot_ts`, `dmx_send` returns 0 and starts no transmission: the
driver state — IS_SENDING, `head`, `tx_size` and the buffer — is
unchanged. -/
theorem dmx_send_response_window_closed (d : DmxDriver) (size : Nat)
    (now1 now2 : Int) (notified : Bool) (txfifo_len : Nat)
    (hrdm : dataIsRdm d.data) (hcc : ccIsResponse (d.data 20))
    (ht : RDM_RESPONDER_RESPONSE_LOST_TIMEOUT ≤ now1 - d.last_slot_ts)
    (hs : d.is_sending = false) :
    dmx_send d size now1 now2 notified txfifo_len =
      { ret := 0, driver := d, spacing_alarm := Option.none,
        started := false } ∧
    (dmx_send d size now1 now2 notified txfifo_len).driver.is_sending =
      false := by
  have h0 : dmx_send d size now1 now2 notified txfifo_len =
      { ret := 0, driver := d, spacing_alarm := Option.none,
        started := false } := by
    have hiff : (if dataIsRdm d.data ∧ ccIsResponse (d.data 20) then
        now1 - d.last_slot_ts else 0) = now1 - d.last_slot_ts :=
      if_pos ⟨hrdm, hcc⟩
    simp only [dmx_send, hiff]
    rw [if_pos ht]
  exact ⟨h0, by rw [h0]; exact hs⟩

/-- A concrete driver buffer holding an RDM GET response frame. -/
def c1Buf : Nat → Nat := fun i =>
  if i = 0 then 0xCC else if i = 1 then 0x01 else if i = 20 then 0x21 else 0

/-- A concrete driver state holding an RDM GET response frame. -/
def c1Driver : DmxDriver := { dmx_driver_install 64 with data := c1Buf }

/-- Witness for C1 at a concrete state: 2500 µs after the last slot, the
send of the buffered GET response is aborted. -/
theorem dmx_send_response_window_closed_witness :
    dmx_send c1Driver 26 2500 2500 true 128 =
      { ret := 0, driver := c1Driver, spacing_alarm := Option.none,
        started := false } :=
  (dmx_send_response_window_closed c1Driver 26 2500 2500 true 128
    (by decide) (by decide) (by decide) (by decide)).1

/-- C6: a `dmx_write_offset` that copied `m > 0` bytes establishes exactly
`m = min n (513 − offset)`, and an immediately following `dmx_read_offset`
at the same offset and size returns `m` and the first `m` bytes of the
written source. -/
theorem write_read_roundtrip (d : DmxDriver) (offset n : Nat)
    (src : Nat → Nat) (m : Nat) (d' : DmxDriver)
    (hw : dmx_write_offset d offset src n = (m, d')) (hm : 0 < m) :
    m = min n (DMX_MAX_PACKET_SIZE - offset) ∧
    dmx_read_offset d' offset n = (m, (List.range m).map src) := by
  simp only [dmx_write_offset] at hw
  by_cases hoff : DMX_MAX_PACKET_SIZE ≤ offset
  · rw [if_pos hoff] at hw
    cases hw
    exact absurd hm (lt_irrefl 0)
  rw [if_neg hoff] at hw
  set sz := if DMX_MAX_PACKET_SIZE < n + offset then
      DMX_MAX_PACKET_SIZE - offset else n with hsz
  by_cases hsz0 : sz = 0
  · rw [if_pos hsz0] at hw
    cases hw
    exact absurd hm (lt_irrefl 0)
  rw [if_neg hsz0] at hw
  by_cases href : d.is_sending = true ∧ d.rdm_type ≠ RdmType.zero
  · rw [if_pos href] at hw
    cases hw
    exact absurd hm (lt_irrefl 0)
  rw [if_neg href] at hw
  injection hw with h1 h2
  subst h1
  subst h2
  constructor
  · rw [hsz]
    split_ifs with hc
    · omega
    · omega
  · simp only [dmx_read_offset]
    rw [if_neg hoff, ← hsz, if_neg hsz0]
    refine congrArg _ ?_
    refine List.map_congr_left ?_
    intro i hi
    rw [List.mem_range] at hi
    have h2 : offset + i < offset + sz := by omega
    by_cases hrts : d.rts = 1 <;>
      simp [hrts, bufWrite, Nat.le_add_right, h2, Nat.add_sub_cancel_left]

theorem findParamIdx_le (d : DmxDriver) (pid : Nat) :
    findParamIdx d pid ≤ d.num_parameters := by
  simpa using scanIdx_le (fun i => (d.params i).definition.pid == pid)
    d.num_parameters 0

theorem findParamIdx_hit (d : DmxDriver) (pid : Nat)
    (h : findParamIdx d pid < d.num_parameters) :
    (d.params (findParamIdx d pid)).definition.pid = pid := by
  have := scanIdx_hit (fun i => (d.params i).definition.pid == pid)
    d.num_parameters 0 (by simpa using h)
  simpa [findParamIdx] using this

theorem findParamIdx_min (d : DmxDriver) (pid j : Nat)
    (hj : j < findParamIdx d pid) :
    (d.params j).definition.pid ≠ pid := by
  have := scanIdx_min (fun i => (d.params i).definition.pid == pid)
    d.num_parameters 0 j (Nat.zero_le j) hj
  simpa using this

theorem findParamIdx_all_ne (d : DmxDriver) (pid : Nat)
    (h : ∀ j, j < d.num_parameters → (d.params j).definition.pid ≠ pid) :
    findParamIdx d pid = d.num_parameters := by
  have := scanIdx_all_false (fun i => (d.params i).definition.pid == pid)
    d.num_parameters 0 ?_
  · simpa using this
  · intro j hj0 hjn
    simpa using h j (by omega)

theorem findParamIdx_first (d : DmxDriver) (pid m : Nat)
    (hm : m < d.num_parameters)
    (hfm : (d.params m).definition.pid = pid)
    (hbelow : ∀ j, j < m → (d.params j).definition.pid ≠ pid) :
    findParamIdx d pid = m := by
  have := scanIdx_first (fun i => (d.params i).definition.pid == pid)
    d.num_parameters 0 m (Nat.zero_le m) (by omega) (by simpa using hfm) ?_
  · simpa using this
  · intro j hj0 hjm
    simpa using hbelow j hjm

theorem findParamIdx_insert (d : DmxDriver) (rec : RdmParameter) (pid : Nat)
    (hpdi : findParamIdx d pid = d.num_parameters)
    (hrec : rec.definition.pid = pid) :
    findParamIdx
      { d with
        params := fun i => if i = findParamIdx d pid then rec else d.params i,
        num_parameters := d.num_parameters + 1 } pid = d.num_parameters := by
  apply findParamIdx_first
  · show d.num_parameters < d.num_parameters + 1
    omega
  · show (if d.num_parameters = findParamIdx d pid then rec
      else d.params d.num_parameters).definition.pid = pid
    rw [if_pos hpdi.symm]
    exact hrec
  · intro j hj
    show (if j = findParamIdx d pid then rec else d.params j).definition.pid ≠ pid
    rw [if_neg (by omega)]
    exact findParamIdx_min d pid j (by omega)

/-- C10: a parameter registered through `rdm_pd_add_deterministic` stores a
null data pointer, so `rdm_pd_get` on its PID returns null, exactly as it
does for a PID that was never registered. -/
theorem rdm_pd_add_deterministic_get_null (d : DmxDriver)
    (defn : RdmPidDescription) (fmt : String) (rh : Nat) (d' : DmxDriver)
    (hadd : rdm_pd_add_deterministic d defn fmt rh = (true, d')) :
    rdm_pd_get d' defn.pid = Option.none ∧
    ∀ (d0 : DmxDriver) (q : Nat),
      (∀ j, j < d0.num_parameters → (d0.params j).definition.pid ≠ q) →
      rdm_pd_get d0 q = Option.none := by
  constructor
  · simp only [rdm_pd_add_deterministic] at hadd
    split_ifs at hadd with h1 h2
    · exact absurd (congrArg Prod.fst hadd) (by simp)
    · exact absurd (congrArg Prod.fst hadd) (by simp)
    · injection hadd with hb hd
      have hpdi : findParamIdx d defn.pid = d.num_parameters := by
        rcases Nat.lt_or_ge (findParamIdx d defn.pid) d.num_parameters
          with hlt | hge
        · exact absurd (findParamIdx_hit d defn.pid hlt) h1
        · have := findParamIdx_le d defn.pid
          omega
      subst hd
      have hfind := findParamIdx_insert d
        { definition := defn, data := Option.none, format := fmt,
          nvs := false, response_handler := rh, callback := Option.none }
        defn.pid hpdi rfl
      simp only [rdm_pd_get, hfind]
      rw [if_pos (by show d.num_parameters < d.num_parameters + 1; omega)]
      show (if d.num_parameters = findParamIdx d defn.pid then _
        else d.params d.num_parameters).data = Option.none
      rw [if_pos hpdi.symm]
  · intro d0 q hq
    have h0 : findParamIdx d0 q = d0.num_parameters :=
      findParamIdx_all_ne d0 q hq
    simp [rdm_pd_get, h0]

/-- A state with one deterministic parameter registered, for the C10
witness. -/
def detDriver : DmxDriver := dmx_driver_install 64

/-- Witness for C10: registering the deterministic PID 0x0082 on a fresh
driver succeeds, and `rdm_pd_get` then returns null for it. -/
theorem rdm_pd_add_deterministic_get_null_witness :
    rdm_pd_get (rdm_pd_add_deterministic detDriver
      { pid := 0x0082, pdl_size := 4, data_type := 0 } "d" 1).2 0x0082 =
      Option.none :=
  (rdm_pd_add_deterministic_get_null detDriver
    { pid := 0x0082, pdl_size := 4, data_type := 0 } "d" 1
    (rdm_pd_add_deterministic detDriver
      { pid := 0x0082, pdl_size := 4, data_type := 0 } "d" 1).2 rfl).1

theorem rdm_pd_add_new_of_registered (d : DmxDriver)
    (defn : RdmPidDescription) (fmt : String) (nvs : Bool) (rh : Nat)
    (dv : Option (Nat → Nat)) (m : Nat) (hm : m < d.num_parameters)
    (hpid : (d.params m).definition.pid = defn.pid) :
    rdm_pd_add_new d defn fmt nvs rh dv = (Option.none, d) := by
  have hlt : findParamIdx d defn.pid < d.num_parameters := by
    by_contra hge
    push_neg at hge
    exact findParamIdx_min d defn.pid m (by omega) hpid
  have hhit := findParamIdx_hit d defn.pid hlt
  simp only [rdm_pd_add_new]
  rw [if_pos hhit]

/-- C8: once a PID has been registered by a successful `rdm_pd_add_new`, a
second `rdm_pd_add_new` with the same PID returns null and leaves the
driver state — slab head, slab contents and parameter count included —
unchanged. -/
theorem rdm_pd_add_new_duplicate_noop (d : DmxDriver)
    (defn defn2 : RdmPidDescription) (fmt fmt2 : String) (nvs nvs2 : Bool)
    (rh rh2 : Nat) (dv dv2 : Option (Nat → Nat)) (p : Nat) (d' : DmxDriver)
    (hpid2 : defn2.pid = defn.pid)
    (hadd : rdm_pd_add_new d defn fmt nvs rh dv = (some p, d')) :
    rdm_pd_add_new d' defn2 fmt2 nvs2 rh2 dv2 = (Option.none, d') := by
  simp only [rdm_pd_add_new] at hadd
  split_ifs at hadd with h1 h2 h3
  · exact absurd (congrArg Prod.fst hadd) (by simp)
  · exact absurd (congrArg Prod.fst hadd) (by simp)
  · have hpdi : findParamIdx d defn.pid = d.num_parameters := by
      rcases Nat.lt_or_ge (findParamIdx d defn.pid) d.num_parameters
        with hlt | hge
      · exact absurd (findParamIdx_hit d defn.pid hlt) h1
      · have := findParamIdx_le d defn.pid
        omega
    injection hadd with hp hd
    subst hd
    refine rdm_pd_add_new_of_registered _ defn2 fmt2 nvs2 rh2 dv2
      d.num_parameters ?_ ?_
    · show d.num_parameters < d.num_parameters + 1
      omega
    · show (if d.num_parameters = findParamIdx d defn.pid then _
        else d.params d.num_parameters).definition.pid = defn2.pid
      rw [if_pos hpdi.symm]
      exact hpid2.symm
  · exact absurd (congrArg Prod.fst hadd) (by simp)

/-- Witness for C8: registering PID 0x00E0 on a fresh driver succeeds;
repeating the registration returns null and changes nothing. -/
theorem rdm_pd_add_new_duplicate_noop_witness :
    rdm_pd_add_new (rdm_pd_add_new (dmx_driver_install 64)
        { pid := 0x00E0, pdl_size := 2, data_type := 0 } "w" false 1
        Option.none).2
      { pid := 0x00E0, pdl_size := 2, data_type := 0 } "w" false 1
      Option.none =
    (Option.none, (rdm_pd_add_new (dmx_driver_install 64)
        { pid := 0x00E0, pdl_size := 2, data_type := 0 } "w" false 1
        Option.none).2) := by
  apply rdm_pd_add_new_duplicate_noop (dmx_driver_install 64)
    { pid := 0x00E0, pdl_size := 2, data_type := 0 }
    { pid := 0x00E0, pdl_size := 2, data_type := 0 } "w" "w" false false 1 1
    Option.none Option.none 0
  · rfl
  · rfl

theorem listFindIdx_append_self (q : List Nat) (pid : Nat)
    (h : listFindIdx pid q = Option.none) :
    listFindIdx pid (q ++ [pid]) = some q.length := by
  induction q with
  | nil => simp [listFindIdx]
  | cons x xs ih =>
    simp only [listFindIdx, List.cons_append] at h ⊢
    by_cases hx : x = pid
    · simp [hx] at h
    · rw [if_neg hx] at h ⊢
      have h' : listFindIdx pid xs = Option.none := by
        cases hfx : listFindIdx pid xs
        · rfl
        · rw [hfx] at h
          simp at h
      simp only [List.append_eq]
      rw [ih h']
      simp

/-- A driver with PID 1 registered and the pending queue completely full,
PID 1 among the queued entries at index 0. -/
def fullQueueDriver : DmxDriver :=
  { dmx_driver_install 64 with
    params := fun i =>
      if i = 0 then
        { definition := { pid := 1, pdl_size := 2, data_type := 0 },
          data := some 0, format := "", nvs := false, response_handler := 1,
          callback := Option.none }
      else RdmParameter.zeroed,
    num_parameters := 1,
    rdm_queue := (List.range RDM_RESPONDER_QUEUE_SIZE_MAX).map (· + 1) }

/-- C7 counterexample: PID 1 is registered and already queued at index 0,
but because the queue is full `rdm_pd_enqueue` returns -1 rather than the
existing index — the already-queued search only runs below the capacity
guard. -/
theorem rdm_pd_enqueue_full_queue_counterexample :
    listFindIdx 1 fullQueueDriver.rdm_queue = some 0 ∧
    fullQueueDriver.rdm_queue.length = RDM_RESPONDER_QUEUE_SIZE_MAX ∧
    (rdm_pd_enqueue fullQueueDriver 1).1 = -1 ∧
    (rdm_pd_enqueue fullQueueDriver 1).1 ≠ (0 : Int) := by decide

/-- C7 (amended): for a registered PID, while the queue is not full
`rdm_pd_enqueue` returns the existing index of an already-queued PID and
otherwise appends, returning the new index; whenever the queue is full it
returns -1, even for an already-queued PID. Calling it twice on a
not-yet-queued PID with at least two free slots yields the same index
both times and grows the queue by exactly one. -/
theorem rdm_pd_enqueue_amended (d : DmxDriver) (pid : Nat)
    (hreg : findParamIdx d pid ≠ d.num_parameters) :
    (RDM_RESPONDER_QUEUE_SIZE_MAX ≤ d.rdm_queue.length →
      (rdm_pd_enqueue d pid).1 = -1) ∧
    (d.rdm_queue.length < RDM_RESPONDER_QUEUE_SIZE_MAX →
      (∀ i, listFindIdx pid d.rdm_queue = some i →
        rdm_pd_enqueue d pid = ((i : Int), d)) ∧
      (listFindIdx pid d.rdm_queue = Option.none →
        rdm_pd_enqueue d pid =
          ((d.rdm_queue.length : Int),
            { d with rdm_queue := d.rdm_queue ++ [pid] }))) ∧
    (d.rdm_queue.length + 2 ≤ RDM_RESPONDER_QUEUE_SIZE_MAX →
      listFindIdx pid d.rdm_queue = Option.none →
      (rdm_pd_enqueue d pid).1 = (d.rdm_queue.length : Int) ∧
      (rdm_pd_enqueue (rdm_pd_enqueue d pid).2 pid).1 =
        (d.rdm_queue.length : Int) ∧
      (rdm_pd_enqueue (rdm_pd_enqueue d pid).2 pid).2.rdm_queue.length =
        d.rdm_queue.length + 1) := by
  have hfst : ∀ (hlt : d.rdm_queue.length < RDM_RESPONDER_QUEUE_SIZE_MAX)
      (hnone : listFindIdx pid d.rdm_queue = Option.none),
      rdm_pd_enqueue d pid =
        ((d.rdm_queue.length : Int),
          { d with rdm_queue := d.rdm_queue ++ [pid] }) := by
    intro hlt hnone
    simp only [rdm_pd_enqueue, if_neg hreg]
    rw [if_pos hlt, hnone]
  refine ⟨?_, ?_, ?_⟩
  · intro hfull
    simp only [rdm_pd_enqueue, if_neg hreg]
    rw [if_neg (by omega)]
  · intro hlt
    refine ⟨?_, fun hnone => hfst hlt hnone⟩
    intro i hi
    simp only [rdm_pd_enqueue, if_neg hreg]
    rw [if_pos hlt, hi]
  · intro hroom hnone
    have h1 := hfst (by omega) hnone
    have hreg2 : findParamIdx
        { d with rdm_queue := d.rdm_queue ++ [pid] } pid ≠
        ({ d with rdm_queue := d.rdm_queue ++ [pid] } : DmxDriver).num_parameters :=
      hreg
    have hfind := listFindIdx_append_self d.rdm_queue pid hnone
    have h2 : rdm_pd_enqueue
        { d with rdm_queue := d.rdm_queue ++ [pid] } pid =
        ((d.rdm_queue.length : Int),
          { d with rdm_queue := d.rdm_queue ++ [pid] }) := by
      simp only [rdm_pd_enqueue, if_neg hreg2]
      rw [if_pos (by simp; omega)]
      simp only [hfind]
    refine ⟨by rw [h1], ?_, ?_⟩
    · rw [h1]
      show (rdm_pd_enqueue
        { d with rdm_queue := d.rdm_queue ++ [pid] } pid).1 = _
      rw [h2]
    · rw [h1]
      show (rdm_pd_enqueue
        { d with rdm_queue := d.rdm_queue ++ [pid] } pid).2.rdm_queue.length = _
      rw [h2]
      simp

/-- A fresh driver with PID 7 registered and an empty pending queue, for
the C7 witness. -/
def enqDriver : DmxDriver :=
  { dmx_driver_install 64 with
    params := fun i =>
      if i = 0 then
        { definition := { pid := 7, pdl_size := 2, data_type := 0 },
          data := some 0, format := "", nvs := false, response_handler := 1,
          callback := Option.none }
      else RdmParameter.zeroed,
    num_parameters := 1 }

/-- Witness for the amended C7: enqueueing registered PID 7 twice on an
empty queue returns index 0 both times and grows the queue to one
entry. -/
theorem rdm_pd_enqueue_amended_witness :
    (rdm_pd_enqueue enqDriver 7).1 = 0 ∧
    (rdm_pd_enqueue (rdm_pd_enqueue enqDriver 7).2 7).1 = 0 ∧
    (rdm_pd_enqueue (rdm_pd_enqueue enqDriver 7).2 7).2.rdm_queue.length = 1 := by
  have h := (rdm_pd_enqueue_amended enqDriver 7 (by decide)).2.2
    (by decide) (by decide)
  exact ⟨h.1.trans (by decide), h.2.1.trans (by decide),
    h.2.2.trans (by decide)⟩

/-- The UID of this device in the dispatcher scenarios. -/
def exUid : RdmUid := { man_id := 0x05E0, dev_id := 0x12345678 }

/-- A callback-table entry for PID 0x0060 (DEVICE_INFO) answering ACK with
a 19-byte payload. -/
def exCb : RdmCbEntry :=
  { pid := 0x0060, pdl_size := 19,
    cb := fun _ pd => (RdmResponseType.ack, 19, pd) }

/-- A driver with the DEVICE_INFO callback registered and one PID pending
in the RDM queue. -/
def exDriver : DmxDriver :=
  { dmx_driver_install 64 with
    rdm_cbs := fun i => if i = 0 then exCb else RdmCbEntry.zeroed,
    num_rdm_cbs := 1,
    rdm_queue := [0x0031] }

/-- C5: a broadcast RDM request that is not DISC_UNIQUE_BRANCH still
invokes the registered per-PID handler (exactly when one matches the PID)
but the response is suppressed — nothing is written or sent — and the
dispatch returns the received packet size. -/
theorem dispatch_broadcast_suppressed (d : DmxDriver) (header : RdmHeader)
    (pd0 : Nat → Nat) (my : RdmUid) (ps : Nat)
    (hbc : uid_is_broadcast header.dest_uid = true)
    (hnd : ¬(header.cc = RDM_CC_DISC_COMMAND ∧
      header.pid = RDM_PID_DISC_UNIQUE_BRANCH)) :
    dmx_receive_dispatch d header pd0 my ps =
      { ret := ps,
        handler_invoked := decide (findCbIdx d header.pid < d.num_rdm_cbs),
        response := Option.none } ∧
    ((dmx_receive_dispatch d header pd0 my ps).handler_invoked = true ↔
      ∃ j, j < d.num_rdm_cbs ∧ (d.rdm_cbs j).pid = header.pid) := by
  have hcond : uid_is_broadcast header.dest_uid = true ∧
      ¬(header.cc = RDM_CC_DISC_COMMAND ∧
        header.pid = RDM_PID_DISC_UNIQUE_BRANCH) := ⟨hbc, hnd⟩
  have h0 : dmx_receive_dispatch d header pd0 my ps =
      { ret := ps,
        handler_invoked := decide (findCbIdx d header.pid < d.num_rdm_cbs),
        response := Option.none } := by
    simp only [dmx_receive_dispatch]
    rw [if_pos hcond]
  refine ⟨h0, ?_⟩
  rw [h0]
  simp only [decide_eq_true_eq, findCbIdx]
  rw [scanIdx_lt_iff]
  simp

/-- A broadcast GET request for the registered PID 0x0060. -/
def bcastHeader : RdmHeader :=
  { dest_uid := { man_id := 0xFFFF, dev_id := 0xFFFFFFFF },
    src_uid := { man_id := 0x0011, dev_id := 0x22334455 }, tn := 2,
    response_type := RdmResponseType.ack, message_count := 0, sub_device := 0,
    cc := RDM_CC_GET_COMMAND, pid := 0x0060, pdl := 0 }

/-- Witness for C5: the broadcast GET on the registered PID runs the
handler yet no response is emitted and the packet size is returned. -/
theorem dispatch_broadcast_suppressed_witness :
    (dmx_receive_dispatch exDriver bcastHeader (fun _ => 0) exUid 30).response
      = Option.none ∧
    (dmx_receive_dispatch exDriver bcastHeader (fun _ => 0)
      exUid 30).handler_invoked = true ∧
    (dmx_receive_dispatch exDriver bcastHeader (fun _ => 0) exUid 30).ret
      = 30 := by
  have h := dispatch_broadcast_suppressed exDriver bcastHeader (fun _ => 0)
    exUid 30 (by decide) (by decide)
  refine ⟨?_, ?_, ?_⟩
  · rw [h.1]
  · rw [h.1]
    decide
  · rw [h.1]

/-- A unicast GET request for the unregistered PID 0x1234. -/
def unkHeader : RdmHeader :=
  { dest_uid := exUid, src_uid := { man_id := 0x0011, dev_id := 0x22334455 },
    tn := 7, response_type := RdmResponseType.ack, message_count := 0,
    sub_device := 0, cc := RDM_CC_GET_COMMAND, pid := 0x1234, pdl := 0 }

/-- The dispatch outcome for the unknown-PID GET on a driver with an empty
callback table. -/
def unkOut : DispatchOutcome :=
  dmx_receive_dispatch (dmx_driver_install 64) unkHeader (fun _ => 0)
    exUid 26

/-- C3 (code-bug evidence): for a unicast GET on an unregistered PID the
dispatcher emits a response whose parameter data is the big-endian
NR_UNKNOWN_PID word `00 11` with pdl = 2, but whose response_type field
still holds RDM_RESPONSE_TYPE_NONE — the unknown-PID branch writes the
NACK body without ever assigning NACK_REASON. -/
theorem dispatch_unknown_pid_not_nack :
    (unkOut.response.map fun r => r.header.response_type) =
      some RdmResponseType.none ∧
    (unkOut.response.map fun r => (r.header.pdl, r.pd 0, r.pd 1)) =
      some (2, 0x00, 0x11) ∧
    RdmResponseType.none ≠ RdmResponseType.nackReason ∧
    unkOut.handler_invoked = false := by decide

/-- A buffer holding a unicast (non-broadcast, non-DISC_UNIQUE_BRANCH)
RDM GET request: dest UID 0x000A:00000002, CC 0x20, PID 0x0060. -/
def reqBuf : Nat → Nat := fun i =>
  if i = 0 then 0xCC else if i = 1 then 0x01 else
  if i = 4 then 0x0A else if i = 8 then 0x02 else
  if i = 20 then 0x20 else if i = 22 then 0x60 else 0

/-- A driver about to send the unicast GET request. -/
def sendDriver0 : DmxDriver :=
  { dmx_driver_install 64 with data := reqBuf, rts := 0 }

/-- The driver after sending the unicast GET request and after the TX ISR
completed the frame at t = 10000 µs (no response arrives). -/
def sendDriver1 : DmxDriver :=
  dmx_isr_tx_done (dmx_send sendDriver0 26 0 0 true 128).driver 10000

/-- C2 (code-bug evidence): after a unicast non-discovery RDM request with
no response, the driver state carries SENT_LAST with
`rdm_type = IS_VALID | IS_REQUEST`; a `dmx_send` only 1000 µs later —
well inside the 3000 µs `RDM_REQUEST_NO_RESPONSE_PACKET_SPACING` — computes
a spacing timeout of 0, arms no alarm, and starts transmitting at once:
the source's `rdm_type == DMX_FLAGS_RDM_IS_REQUEST` equality can never
match a classification that also sets IS_VALID. -/
theorem dmx_send_request_spacing_not_enforced :
    sendDriver1.sent_last = true ∧
    sendDriver1.rdm_type =
      { is_valid := true, is_request := true, is_broadcast := false,
        is_disc_unique_branch := false } ∧
    sendDriver1.is_sending = false ∧
    (11000 : Int) - sendDriver1.last_slot_ts <
      (RDM_REQUEST_NO_RESPONSE_PACKET_SPACING : Int) ∧
    dmx_send_timeout sendDriver1 = 0 ∧
    (dmx_send sendDriver1 0 11000 11000 true 128).spacing_alarm =
      Option.none ∧
    (dmx_send sendDriver1 0 11000 11000 true 128).started = true := by
  decide

theorem driverInv_install (n : Nat) : DriverInv (dmx_driver_install n) := by
  simp [DriverInv, dmx_driver_install, DMX_MAX_PACKET_SIZE,
    RDM_RESPONDER_NUM_PIDS_MAX]

theorem driverInv_add_new (d : DmxDriver) (defn : RdmPidDescription)
    (fmt : String) (nvs : Bool) (rh : Nat) (dv : Option (Nat → Nat))
    (h : DriverInv d) : DriverInv (rdm_pd_add_new d defn fmt nvs rh dv).2 := by
  simp only [rdm_pd_add_new]
  split_ifs with h1 h2 h3
  · exact h
  · exact h
  · have hle := findParamIdx_le d defn.pid
    have hpdi : findParamIdx d defn.pid = d.num_parameters := by
      rcases Nat.lt_or_ge (findParamIdx d defn.pid) d.num_parameters
        with hlt | hge
      · exact absurd (findParamIdx_hit d defn.pid hlt) h1
      · omega
    simp only [DriverInv, RDM_RESPONDER_NUM_PIDS_MAX,
      DMX_MAX_PACKET_SIZE] at h ⊢
    simp only [RDM_RESPONDER_NUM_PIDS_MAX] at h2
    omega
  · exact h

theorem driverInv_add_alias (d : DmxDriver) (defn : RdmPidDescription)
    (fmt : String) (nvs : Bool) (rh a off : Nat) (h : DriverInv d) :
    DriverInv (rdm_pd_add_alias d defn fmt nvs rh a off).2 := by
  simp only [rdm_pd_add_alias]
  split_ifs with h1 h2 h3 h4
  · exact h
  · exact h
  · exact h
  · exact h
  · have hle := findParamIdx_le d defn.pid
    have hpdi : findParamIdx d defn.pid = d.num_parameters := by
      rcases Nat.lt_or_ge (findParamIdx d defn.pid) d.num_parameters
        with hlt | hge
      · exact absurd (findParamIdx_hit d defn.pid hlt) h1
      · omega
    simp only [DriverInv, RDM_RESPONDER_NUM_PIDS_MAX,
      DMX_MAX_PACKET_SIZE] at h ⊢
    simp only [RDM_RESPONDER_NUM_PIDS_MAX] at h2
    omega

theorem driverInv_add_deterministic (d : DmxDriver)
    (defn : RdmPidDescription) (fmt : String) (rh : Nat) (h : DriverInv d) :
    DriverInv (rdm_pd_add_deterministic d defn fmt rh).2 := by
  simp only [rdm_pd_add_deterministic]
  split_ifs with h1 h2
  · exact h
  · exact h
  · have hle := findParamIdx_le d defn.pid
    have hpdi : findParamIdx d defn.pid = d.num_parameters := by
      rcases Nat.lt_or_ge (findParamIdx d defn.pid) d.num_parameters
        with hlt | hge
      · exact absurd (findParamIdx_hit d defn.pid hlt) h1
      · omega
    simp only [DriverInv, RDM_RESPONDER_NUM_PIDS_MAX,
      DMX_MAX_PACKET_SIZE] at h ⊢
    simp only [RDM_RESPONDER_NUM_PIDS_MAX] at h2
    omega

theorem driverInv_pd_set (d : DmxDriver) (pid : Nat) (f : Nat → Nat)
    (n : Nat) (h : DriverInv d) : DriverInv (rdm_pd_set d pid f n).2 := by
  simp only [rdm_pd_set]
  split_ifs with h1 h2 h3 <;>
    first
      | exact h
      | (cases hdata : (d.params (findParamIdx d pid)).data <;>
          simp only [hdata] <;> exact h)

theorem driverInv_enqueue (d : DmxDriver) (pid : Nat) (h : DriverInv d) :
    DriverInv (rdm_pd_enqueue d pid).2 := by
  simp only [rdm_pd_enqueue]
  split_ifs with h1 h2
  · exact h
  · cases hfx : listFindIdx pid d.rdm_queue
    · simp only [hfx]
      exact h
    · simp only [hfx]
      exact h
  · exact h

theorem driverInv_write (d : DmxDriver) (off : Nat) (src : Nat → Nat)
    (n : Nat) (h : DriverInv d) : DriverInv (dmx_write_offset d off src n).2 := by
  simp only [dmx_write_offset]
  split_ifs with h1 h2 h3 h4 h5 <;>
    first
      | exact h
      | (simp only [DriverInv, DMX_MAX_PACKET_SIZE] at h ⊢
         simp only [DMX_MAX_PACKET_SIZE] at h1 h2
         omega)

theorem driverInv_send_transmit (d : DmxDriver) (size : Nat)
    (alarm : Option Nat) (fifo : Nat) (h : DriverInv d) :
    DriverInv (dmx_send_transmit d size alarm fifo).driver := by
  simp only [dmx_send_transmit]
  split_ifs <;>
    first
      | exact h
      | (simp only [DriverInv, DMX_MAX_PACKET_SIZE] at *
         omega)

theorem driverInv_send (d : DmxDriver) (size : Nat) (n1 n2 : Int)
    (ntf : Bool) (fifo : Nat) (h : DriverInv d) :
    DriverInv (dmx_send d size n1 n2 ntf fifo).driver := by
  simp only [dmx_send]
  split_ifs <;>
    first
      | exact h
      | exact driverInv_send_transmit _ size _ fifo h

theorem driverInv_receive (d : DmxDriver) (now : Int) (wait ntf : Bool)
    (h : DriverInv d) : DriverInv (dmx_receive_state d now wait ntf) := by
  simp only [dmx_receive_state]
  split_ifs <;>
    first
      | exact h
      | (simp only [DriverInv, DMX_MAX_PACKET_SIZE] at h ⊢
         omega)

theorem driverInv_isr_rx_data (d : DmxDriver) (bytes : List Nat) (now : Int)
    (h : DriverInv d) : DriverInv (dmx_isr_rx_data d bytes now) := by
  simp only [dmx_isr_rx_data]
  split_ifs with h1
  · simp only [DriverInv, DMX_MAX_PACKET_SIZE] at h ⊢
    omega
  · exact h

/-- C9: every driver state reachable from install through the public
operations satisfies `0 ≤ pd_head ≤ pd_size`,
`num_parameters ≤ RDM_RESPONDER_NUM_PIDS_MAX`, `head ∈ [-1, 513]` and
`tx_size ∈ [1, 513]`. -/
theorem reachable_driver_invariant (d : DmxDriver) (h : Reachable d) :
    DriverInv d := by
  induction h with
  | install n => exact driverInv_install n
  | add_new defn fmt nvs rh dv _ ih =>
    exact driverInv_add_new _ defn fmt nvs rh dv ih
  | add_alias defn fmt nvs rh a off _ ih =>
    exact driverInv_add_alias _ defn fmt nvs rh a off ih
  | add_deterministic defn fmt rh _ ih =>
    exact driverInv_add_deterministic _ defn fmt rh ih
  | pd_set pid f n _ ih => exact driverInv_pd_set _ pid f n ih
  | enqueue pid _ ih => exact driverInv_enqueue _ pid ih
  | write off src n _ ih => exact driverInv_write _ off src n ih
  | send size n1 n2 ntf fifo _ ih =>
    exact driverInv_send _ size n1 n2 ntf fifo ih
  | receive now wait ntf _ ih => exact driverInv_receive _ now wait ntf ih
  | rdm_write f _ ih => exact ih
  | isr_tx_done now _ ih => exact ih
  | isr_rx_break _ ih =>
    simp only [dmx_isr_rx_break, DriverInv, DMX_MAX_PACKET_SIZE] at ih ⊢
    omega
  | isr_rx_data bytes now _ ih => exact driverInv_isr_rx_data _ bytes now ih

/-- Witness for C9: the invariant holds at the freshly installed driver,
obtained through the reachability theorem at the install step. -/
theorem reachable_driver_invariant_witness :
    DriverInv (dmx_driver_install 64) :=
  reachable_driver_invariant (dmx_driver_install 64) (Reachable.install 64)

/-- Witness for C6: writing three bytes at offset 1 of a fresh driver
copies min(3, 512) = 3 bytes, and reading them back at the same offset
returns exactly those three source bytes. -/
theorem write_read_roundtrip_witness :
    (dmx_write_offset (dmx_driver_install 64) 1 (fun i => i + 10) 3).1 =
      min 3 (DMX_MAX_PACKET_SIZE - 1) ∧
    dmx_read_offset (dmx_write_offset (dmx_driver_install 64) 1
        (fun i => i + 10) 3).2 1 3 =
      ((dmx_write_offset (dmx_driver_install 64) 1 (fun i => i + 10) 3).1,
        (List.range (dmx_write_offset (dmx_driver_install 64) 1
            (fun i => i + 10) 3).1).map (fun i => i + 10)) :=
  write_read_roundtrip (dmx_driver_install 64) 1 3 (fun i => i + 10)
    (dmx_write_offset (dmx_driver_install 64) 1 (fun i => i + 10) 3).1
    (dmx_write_offset (dmx_driver_install 64) 1 (fun i => i + 10) 3).2
    rfl (by decide)
